import Mathlib

/-!
Verification of the physics core of the Interactive Quantum-Aware Multigate
MOSFET Simulator (src/app.py).

The repository is a single-file dashboard around five pure closed-form
formulas.  We embed each formula shallowly:

* Python float arithmetic is modelled by exact arithmetic (`ℚ` where only
  field operations occur, `ℝ` where `exp`/`sqrt` are needed).
* Python scalar division raises `ZeroDivisionError` on a zero divisor, so
  `mosfet_iv`, whose first statement divides by `tox`, is modelled as
  `Except String ℚ` and fails exactly when `tox = 0`.
* numpy float64 division by zero does not raise: it produces a non-finite
  quotient (`inf`) with only a warning.  In `cnt_bandgap` the divisor is a
  `np.float64`, so the bandgap component is modelled as `Option ℝ` whose
  `none` marks the non-finite quotient produced when the diameter is zero.
-/

namespace IQMos

/-- From src/app.py, lines 9-17.  The source computes
`Cox = 3.45e-11 / tox` before any operating-region test, so a zero `tox`
fails (Python `ZeroDivisionError`) on every branch, including cutoff.
The branch structure then follows the source literally. -/
def mosfet_iv (Vg Vd tox mobility Vth : ℚ) : Except String ℚ :=
  if tox = 0 then .error "ZeroDivisionError" else
  let Cox : ℚ := 3.45e-11 / tox
  let k : ℚ := mobility * Cox
  if Vg < Vth then .ok 0
  else if Vd < Vg - Vth then .ok (k * ((Vg - Vth) * Vd - 0.5 * Vd ^ 2))
  else .ok (0.5 * k * (Vg - Vth) ^ 2)

/-- The piecewise policy exactly as the specification words it
(cutoff, triode, saturation with k = mobility * (3.45e-11 / tox)),
written independently of the source for the refinement comparison. -/
def mosfet_iv_spec (Vg Vd tox mobility Vth : ℚ) : ℚ :=
  let k : ℚ := mobility * (3.45e-11 / tox)
  if Vg < Vth then 0
  else if Vd < Vg - Vth then k * ((Vg - Vth) * Vd - 0.5 * Vd ^ 2)
  else 0.5 * k * (Vg - Vth) ^ 2

/-- From src/app.py, lines 19-20. -/
noncomputable def dg_threshold (thickness tox : ℝ) : ℝ :=
  0.2 + 0.5 * Real.exp (-thickness / 5e-9) + (tox * 1e9) * 0.01

/-- Diameter computed by src/app.py, line 23: d = 0.0783 * sqrt(n^2 + m^2 + n*m). -/
noncomputable def cntDiameter (n m : ℕ) : ℝ :=
  0.0783 * Real.sqrt ((n : ℝ) ^ 2 + (m : ℝ) ^ 2 + (n : ℝ) * (m : ℝ))

/-- From src/app.py, lines 22-25.  The source computes `Eg = 0.82 / d`
with no guard; `d` is a `np.float64`, and numpy float division by zero
returns a non-finite quotient (inf) instead of raising, so the bandgap
component is `none` exactly when the divisor `d` vanishes, which for
natural `n`, `m` happens iff `n^2 + m^2 + n*m = 0` (see
`cntDiameter_eq_zero_iff`). -/
noncomputable def cnt_bandgap (n m : ℕ) : ℝ × Option ℝ :=
  (cntDiameter n m,
   if n ^ 2 + m ^ 2 + n * m = 0 then none else some (0.82 / cntDiameter n m))

/-- From src/app.py, line 95: the CNT classification branch
`abs((n - m) % 3) == 0`, generalized to arbitrary integer inputs.
Python `%` with a positive modulus returns the non-negative representative,
which is `Int.emod` (the `%` of `ℤ`). -/
def cntIsMetallic (n m : ℤ) : Bool :=
  ((n - m) % 3).natAbs == 0

/-- From src/app.py, lines 27-28. -/
def mobility_degradation (Efield mu0 : ℚ) : ℚ :=
  mu0 / (1 + Efield / 1e6)

/-- From src/app.py, line 126 (Radiation TID mode): `shift = 0.001 * dose`. -/
def radiation_shift (dose : ℚ) : ℚ :=
  0.001 * dose

/-- The diameter vanishes exactly when the radicand does. -/
theorem cntDiameter_eq_zero_iff (n m : ℕ) :
    cntDiameter n m = 0 ↔ n ^ 2 + m ^ 2 + n * m = 0 := by
  unfold cntDiameter
  rw [mul_eq_zero]
  constructor
  · rintro (h | h)
    · norm_num at h
    · rw [Real.sqrt_eq_zero (by positivity)] at h
      have hn : ((n : ℝ) ^ 2 + (m : ℝ) ^ 2 + (n : ℝ) * (m : ℝ)) =
          ((n ^ 2 + m ^ 2 + n * m : ℕ) : ℝ) := by push_cast; ring
      rw [hn] at h
      exact_mod_cast h
  · intro h
    right
    have hn : ((n : ℝ) ^ 2 + (m : ℝ) ^ 2 + (n : ℝ) * (m : ℝ)) =
        ((n ^ 2 + m ^ 2 + n * m : ℕ) : ℝ) := by push_cast; ring
    rw [hn, h]
    simp

/-! ## Claim theorems -/

/-- C1: for every Vg, Vd, tox, mobility, Vth with tox > 0, mosfet_iv
follows the piecewise policy with k = mobility * (3.45e-11 / tox):
0 in cutoff (Vg < Vth), k*((Vg-Vth)*Vd - 0.5*Vd^2) in triode
(Vg >= Vth and Vd < Vg - Vth), and 0.5*k*(Vg-Vth)^2 otherwise. -/
theorem mosfet_iv_piecewise_policy (Vg Vd tox mobility Vth : ℚ)
    (htox : 0 < tox) :
    mosfet_iv Vg Vd tox mobility Vth =
      .ok (mosfet_iv_spec Vg Vd tox mobility Vth) := by
  unfold mosfet_iv mosfet_iv_spec
  rw [if_neg (ne_of_gt htox)]
  dsimp only
  split_ifs <;> rfl

theorem mosfet_iv_piecewise_policy_witness :
    (0 : ℚ) < 1.5e-9 ∧
      mosfet_iv 1 0.3 1.5e-9 0.02 0.4 =
        .ok (mosfet_iv_spec 1 0.3 1.5e-9 0.02 0.4) :=
  ⟨by norm_num, mosfet_iv_piecewise_policy 1 0.3 1.5e-9 0.02 0.4 (by norm_num)⟩

/-- C2: for Vg >= Vth and tox > 0, the triode expression evaluated at
Vd = Vg - Vth equals the saturation value 0.5*k*(Vg-Vth)^2, and mosfet_iv
at Vd = Vg - Vth (taken through the saturation branch) returns exactly that
value, so the function is continuous across the triode/saturation boundary. -/
theorem mosfet_iv_boundary_continuous (Vg tox mobility Vth : ℚ)
    (htox : 0 < tox) (hVg : Vth ≤ Vg) :
    mobility * (3.45e-11 / tox) *
        ((Vg - Vth) * (Vg - Vth) - 0.5 * (Vg - Vth) ^ 2) =
      0.5 * (mobility * (3.45e-11 / tox)) * (Vg - Vth) ^ 2 ∧
    mosfet_iv Vg (Vg - Vth) tox mobility Vth =
      .ok (0.5 * (mobility * (3.45e-11 / tox)) * (Vg - Vth) ^ 2) := by
  constructor
  · ring
  · unfold mosfet_iv
    rw [if_neg (ne_of_gt htox), if_neg (not_lt.mpr hVg), if_neg (lt_irrefl _)]

theorem mosfet_iv_boundary_continuous_witness :
    (0.02 : ℚ) * (3.45e-11 / 1e-9) *
        ((1 - 0.4) * (1 - 0.4) - 0.5 * (1 - 0.4) ^ 2) =
      0.5 * (0.02 * (3.45e-11 / 1e-9)) * ((1 : ℚ) - 0.4) ^ 2 ∧
    mosfet_iv 1 (1 - 0.4) 1e-9 0.02 0.4 =
      .ok (0.5 * (0.02 * (3.45e-11 / 1e-9)) * ((1 : ℚ) - 0.4) ^ 2) :=
  mosfet_iv_boundary_continuous 1 1e-9 0.02 0.4 (by norm_num) (by norm_num)

/-- C3 counterexample: at n = 0, m = 0 the divisor of the bandgap division
0.82 / d is exactly 0 and the division is performed with no guard — the
function returns the non-finite quotient marker, not a domain error, so the
claim that the d = 0 case is guarded by a domain error fails. -/
theorem cnt_bandgap_guard_counterexample :
    cntDiameter 0 0 = 0 ∧ (cnt_bandgap 0 0).2 = none := by
  constructor
  · exact (cntDiameter_eq_zero_iff 0 0).mpr rfl
  · rfl

/-- C3 amended: cnt_bandgap does not guard d = 0; at n = 0, m = 0 it
performs the division 0.82 / 0, which under numpy float semantics yields a
non-finite value without raising, so the call is nevertheless total on that
input, returning diameter 0 and a non-finite bandgap. -/
theorem cnt_bandgap_total_at_zero :
    cnt_bandgap 0 0 = (0, none) := by
  unfold cnt_bandgap
  rw [Prod.mk.injEq]
  exact ⟨(cntDiameter_eq_zero_iff 0 0).mpr rfl, if_pos rfl⟩

/-- C5: for positive n and m, cnt_bandgap returns the diameter
0.0783 * sqrt(n^2 + m^2 + n*m) and the bandgap 0.82 / d; at (10, 10) the
diameter is within 0.001 of 1.356 nm and the bandgap within 0.001 of
0.605 eV. -/
theorem cnt_bandgap_values (n m : ℕ) (hn : 0 < n) (hm : 0 < m) :
    cnt_bandgap n m =
      (0.0783 * Real.sqrt ((n : ℝ) ^ 2 + (m : ℝ) ^ 2 + (n : ℝ) * (m : ℝ)),
       some (0.82 /
         (0.0783 * Real.sqrt ((n : ℝ) ^ 2 + (m : ℝ) ^ 2 + (n : ℝ) * (m : ℝ))))) ∧
    |cntDiameter 10 10 - 1.356| < 0.001 ∧
    (cnt_bandgap 10 10).2 = some (0.82 / cntDiameter 10 10) ∧
    |0.82 / cntDiameter 10 10 - 0.605| < 0.001 := by
  have key : ∀ n m : ℕ, 0 < n → 0 < m →
      cnt_bandgap n m = (cntDiameter n m, some (0.82 / cntDiameter n m)) := by
    intro a b ha _hb
    have h0 : 0 < a ^ 2 + b ^ 2 + a * b :=
      Nat.lt_of_lt_of_le (pow_pos ha 2) (Nat.le_add_right _ _ |>.trans
        (Nat.le_add_right _ _))
    unfold cnt_bandgap
    rw [if_neg (Nat.pos_iff_ne_zero.mp h0)]
  have hd_eq : cntDiameter 10 10 = 0.0783 * Real.sqrt 300 := by
    unfold cntDiameter; norm_num
  have hs_lo : (17.31 : ℝ) < Real.sqrt 300 :=
    (Real.lt_sqrt (by norm_num)).mpr (by norm_num)
  have hs_hi : Real.sqrt 300 < 17.33 :=
    (Real.sqrt_lt' (by norm_num)).mpr (by norm_num)
  have hd_lo : (1.355 : ℝ) < cntDiameter 10 10 := by
    rw [hd_eq]; nlinarith
  have hd_hi : cntDiameter 10 10 < 1.357 := by
    rw [hd_eq]; nlinarith
  have hd_pos : (0 : ℝ) < cntDiameter 10 10 := by linarith
  refine ⟨key n m hn hm, ?_, (congrArg Prod.snd (key 10 10 (by norm_num)
    (by norm_num))), ?_⟩
  · rw [abs_sub_lt_iff]
    constructor <;> linarith
  · have h1 : (0.604 : ℝ) < 0.82 / cntDiameter 10 10 :=
      (lt_div_iff₀ hd_pos).mpr (by linarith)
    have h2 : 0.82 / cntDiameter 10 10 < 0.606 :=
      (div_lt_iff₀ hd_pos).mpr (by linarith)
    rw [abs_sub_lt_iff]
    constructor <;> linarith

theorem cnt_bandgap_values_witness :
    (0 < 1 ∧ 0 < 1) ∧
    cnt_bandgap 1 1 =
      (0.0783 * Real.sqrt (((1 : ℕ) : ℝ) ^ 2 + ((1 : ℕ) : ℝ) ^ 2 +
         ((1 : ℕ) : ℝ) * ((1 : ℕ) : ℝ)),
       some (0.82 /
         (0.0783 * Real.sqrt (((1 : ℕ) : ℝ) ^ 2 + ((1 : ℕ) : ℝ) ^ 2 +
           ((1 : ℕ) : ℝ) * ((1 : ℕ) : ℝ))))) :=
  ⟨⟨Nat.one_pos, Nat.one_pos⟩,
   (cnt_bandgap_values 1 1 Nat.one_pos Nat.one_pos).1⟩

/-- C7: dg_threshold is strictly decreasing in thickness at fixed tox and
strictly increasing in tox at fixed thickness. -/
theorem dg_threshold_monotone :
    (∀ tox t1 t2 : ℝ, t1 < t2 → dg_threshold t2 tox < dg_threshold t1 tox) ∧
    (∀ thickness tox1 tox2 : ℝ, tox1 < tox2 →
      dg_threshold thickness tox1 < dg_threshold thickness tox2) := by
  constructor
  · intro tox t1 t2 h
    unfold dg_threshold
    have hdiv : -t2 / 5e-9 < -t1 / 5e-9 :=
      (div_lt_div_iff_of_pos_right (by norm_num)).mpr (by linarith)
    have hexp := Real.exp_lt_exp.mpr hdiv
    linarith
  · intro thickness tox1 tox2 h
    unfold dg_threshold
    linarith

theorem dg_threshold_monotone_witness :
    dg_threshold 20e-9 1e-9 < dg_threshold 2e-9 1e-9 ∧
    dg_threshold 10e-9 1e-9 < dg_threshold 10e-9 2e-9 :=
  ⟨dg_threshold_monotone.1 1e-9 2e-9 20e-9 (by norm_num),
   dg_threshold_monotone.2 10e-9 1e-9 2e-9 (by norm_num)⟩

/-- C4: the CNT classification reports metallic exactly when the
(normalized, non-negative) value of (n - m) mod 3 is zero, i.e. exactly
when 3 divides n - m — including every pair with n - m negative; and the
modulo value compared against zero is indeed non-negative. -/
theorem cnt_metallic_iff_dvd (n m : ℤ) :
    (cntIsMetallic n m = true ↔ (3 : ℤ) ∣ (n - m)) ∧ 0 ≤ (n - m) % 3 := by
  refine ⟨?_, Int.emod_nonneg _ (by norm_num)⟩
  unfold cntIsMetallic
  rw [beq_iff_eq, Int.natAbs_eq_zero]
  omega

/-- C6: dg_threshold(thickness, tox) is exactly
0.2 + 0.5*exp(-thickness / 5e-9) + (tox * 1e9) * 0.01. -/
theorem dg_threshold_formula (thickness tox : ℝ) :
    dg_threshold thickness tox =
      0.2 + 0.5 * Real.exp (-thickness / 5e-9) + (tox * 1e9) * 0.01 := rfl

/-- C8: mobility_degradation(Efield, mu0) = mu0 / (1 + Efield / 1e6);
in particular it returns mu0 at Efield = 0 and mu0 / 2 at Efield = 1e6. -/
theorem mobility_degradation_formula :
    (∀ Efield mu0 : ℚ,
        mobility_degradation Efield mu0 = mu0 / (1 + Efield / 1e6)) ∧
    (∀ mu0 : ℚ, mobility_degradation 0 mu0 = mu0) ∧
    (∀ mu0 : ℚ, mobility_degradation 1e6 mu0 = mu0 / 2) := by
  refine ⟨fun _ _ => rfl, fun mu0 => ?_, fun mu0 => ?_⟩ <;>
    · unfold mobility_degradation
      norm_num

/-- C9: the radiation-induced threshold shift is 0.001 * dose, purely
linear, and it equals exactly 0.05 V at dose = 50 krad. -/
theorem radiation_shift_linear :
    (∀ dose : ℚ, radiation_shift dose = 0.001 * dose) ∧
    radiation_shift 50 = 0.05 := by
  refine ⟨fun _ => rfl, ?_⟩
  unfold radiation_shift
  norm_num

/-- C10: mosfet_iv divides by tox before any operating-region check, so
with tox = 0 every call fails with a division-by-zero error — for every
Vg, Vd, mobility, Vth, including cutoff inputs with Vg < Vth. -/
theorem mosfet_iv_tox_zero_error (Vg Vd mobility Vth : ℚ) :
    mosfet_iv Vg Vd 0 mobility Vth = .error "ZeroDivisionError" := by
  unfold mosfet_iv
  rw [if_pos rfl]

end IQMos
